import Mathlib

/-!
Verification development for the stream-management core of the stagepi
backend (`src/backend/core/stream_manager.py` and
`src/backend/api/streams_routes.py`).

The Python code is shallowly embedded: JSON/dict values become `PyVal`,
Python dicts become association lists (`Dict`), fallible code returns
`Except`, and the file-system / supervisor side effects of the relevant
functions are made explicit as traces of operations (`FsOp`, `StartStep`)
or as explicit registry state passed in and out.
-/

namespace StagePiSpec

/-- A Python/JSON scalar value as it appears in the stream configuration
dictionaries (strings, ints, booleans, None). -/
inductive PyVal where
  | pstr (s : String)
  | pint (n : Int)
  | pbool (b : Bool)
  | pnone
  deriving DecidableEq

/-- Python truthiness (`bool(v)`) for the values of `PyVal`. -/
def pyTruthy : PyVal → Bool
  | .pstr s => !(s = "")
  | .pint n => !(n = 0)
  | .pbool b => b
  | .pnone => false

/-- Decimal digits, least significant first, with explicit fuel (the
fuel makes the recursion structural so that terms evaluate inside the
kernel; `decDigitsRev` supplies enough fuel). -/
def decDigitsRevGo : Nat → Nat → List Nat
  | _, 0 => []
  | 0, _ + 1 => []
  | f + 1, n + 1 => ((n + 1) % 10) :: decDigitsRevGo f ((n + 1) / 10)

/-- Decimal digits of a natural number, least significant first
(empty for 0; the zero case is handled by `decDigits`). -/
def decDigitsRev (n : Nat) : List Nat :=
  decDigitsRevGo n n

/-- Decimal digits of a natural number, most significant first (`[0]`
for 0). -/
def decDigits (n : Nat) : List Nat :=
  if n = 0 then [0] else (decDigitsRev n).reverse

/-- The decimal string a nonnegative integer prints as; this is what
Python `str(i)` produces for the loop indices used by the HTTP routes. -/
def pyNatStr (n : Nat) : String :=
  String.mk ((decDigits n).map Nat.digitChar)

/-- Python `str` of an arbitrary-precision integer. -/
def pyIntStr (n : Int) : String :=
  if n < 0 then "-" ++ pyNatStr n.natAbs else pyNatStr n.toNat

/-- Python `str(v)` for the values of `PyVal`. -/
def pyStr : PyVal → String
  | .pstr s => s
  | .pint n => pyIntStr n
  | .pbool b => if b then "True" else "False"
  | .pnone => "None"

/-- Python `repr(v)`, used when a dict is interpolated into an f-string. -/
def pyValRepr : PyVal → String
  | .pstr s => "\x27" ++ s ++ "\x27"
  | .pint n => pyIntStr n
  | .pbool b => if b then "True" else "False"
  | .pnone => "None"

/-- A Python dict with string keys, as an association list. The dicts
handled by the code under scrutiny have pairwise distinct keys; all
operations read and update the first occurrence of a key, which agrees
with the Python semantics on such dicts. -/
abbrev Dict := List (String × PyVal)

/-- `d.get(k)` returning `none` when the key is absent. -/
def dictGet (d : Dict) (k : String) : Option PyVal :=
  match d with
  | [] => none
  | (k', v) :: rest => if k' = k then some v else dictGet rest k

/-- `d.get(k, default)`. -/
def dGet (d : Dict) (k : String) (dft : PyVal) : PyVal :=
  (dictGet d k).getD dft

/-- `d[k] = v`: update the entry for `k` in place, or append it. -/
def dictSet (d : Dict) (k : String) (v : PyVal) : Dict :=
  match d with
  | [] => [(k, v)]
  | (k', v') :: rest => if k' = k then (k', v) :: rest else (k', v') :: dictSet rest k v

/-- Python `{**a, **b}`: the entries of `a` shallowly overwritten by the
entries of `b`. -/
def dictMerge (a b : Dict) : Dict :=
  b.foldl (fun acc kv => dictSet acc kv.1 kv.2) a

/-- Python `repr` of a dict. -/
def dictRepr (d : Dict) : String :=
  "\x7b" ++ String.intercalate ", "
    (d.map (fun kv => "\x27" ++ kv.1 ++ "\x27: " ++ pyValRepr kv.2)) ++ "\x7d"

/-- Whether the character list `hay` starts with `needle`. -/
def startsWithChars : List Char → List Char → Bool
  | _, [] => true
  | [], _ :: _ => false
  | a :: as, b :: bs => a == b && startsWithChars as bs

/-- Whether `needle` occurs as a contiguous run inside `hay`. -/
def charsContain (hay needle : List Char) : Bool :=
  startsWithChars hay needle ||
    match hay with
    | [] => false
    | _ :: t => charsContain t needle

/-- Python `needle in hay` on strings (substring containment). -/
def strContainsSub (hay needle : String) : Bool :=
  charsContain hay.data needle.data

/-- The last `n` elements of a list (`l[-n:]` in Python). -/
def listTakeRight (l : List α) (n : Nat) : List α :=
  l.drop (l.length - n)

/-- The last `n` characters of a string (`s[-n:]` in Python). -/
def strTakeRight (s : String) (n : Nat) : String :=
  String.mk (listTakeRight s.data n)

/-- Python `c in s` for a single character. -/
def strContainsChar (s : String) (c : Char) : Bool :=
  s.data.contains c

/-- Python `s.lower()` (ASCII case folding). -/
def strLower (s : String) : String :=
  String.mk (s.data.map Char.toLower)

/-- Python `s.strip()`: drop leading and trailing whitespace. -/
def strStrip (s : String) : String :=
  String.mk (((s.data.dropWhile Char.isWhitespace).reverse.dropWhile Char.isWhitespace).reverse)

/-- The value of a decimal digit character. -/
def decDigitVal (c : Char) : Option Nat :=
  if c.isDigit then some (c.toNat - 48) else none

/-- Accumulate a nonempty run of decimal digits; `none` on any non-digit. -/
def digitsToNatGo : List Char → Nat → Option Nat
  | [], acc => some acc
  | c :: cs, acc =>
    match decDigitVal c with
    | some d => digitsToNatGo cs (acc * 10 + d)
    | none => none

/-- Python `int(s)` on a string: an optional sign followed by decimal
digits; anything else raises `ValueError` (`none` here). Python's
tolerance for surrounding whitespace and underscore digit grouping is not
modelled. -/
def pyIntOfString (s : String) : Option Int :=
  match s.data with
  | [] => none
  | '-' :: cs =>
    match cs with
    | [] => none
    | _ => (digitsToNatGo cs 0).map (fun n => -(n : Int))
  | '+' :: cs =>
    match cs with
    | [] => none
    | _ => (digitsToNatGo cs 0).map (fun n => (n : Int))
  | cs => (digitsToNatGo cs 0).map (fun n => (n : Int))

/-- Python `int(v)`: exact for ints, 0/1 for booleans, a decimal parse for
strings (`int("x")` raises `ValueError` on a non-numeric string, which is
`none` here), and `none` (`TypeError`) for `None`. -/
def pyInt? : PyVal → Option Int
  | .pint n => some n
  | .pbool b => some (if b then 1 else 0)
  | .pstr s => pyIntOfString s
  | .pnone => none

instance instDecidableEqExcept {ε α : Type} [DecidableEq ε] [DecidableEq α] :
    DecidableEq (Except ε α) := fun x y =>
  match x, y with
  | .ok a, .ok b =>
    match decEq a b with
    | isTrue h => isTrue (congrArg Except.ok h)
    | isFalse h => isFalse (fun hc => h (Except.ok.inj hc))
  | .error a, .error b =>
    match decEq a b with
    | isTrue h => isTrue (congrArg Except.error h)
    | isFalse h => isFalse (fun hc => h (Except.error.inj hc))
  | .ok _, .error _ => isFalse (fun hc => Except.noConfusion hc)
  | .error _, .ok _ => isFalse (fun hc => Except.noConfusion hc)

/-- The `StreamConfig` dataclass of `stream_manager.py`. Fields that the
converter `_dict_to_stream_config` passes through unconverted keep the
dynamic type `PyVal`; fields it wraps in `str()` / `int()` / `bool()` get
the corresponding Lean type. -/
structure StreamConfig where
  stream_id : String
  kind : PyVal
  ip : PyVal
  port : Int
  device : PyVal
  iface : PyVal
  channels : Int
  loopback : Bool
  buffer_time : Int
  latency_time : Int
  sync : Bool
  format : String
  deriving DecidableEq

/-- `_dict_to_stream_config`: build a `StreamConfig` from a raw dict,
applying the source's defaults; returns `none` exactly when one of the
`int(...)` conversions raises (`ValueError`/`TypeError`). -/
def dictToStreamConfig (d : Dict) : Option StreamConfig :=
  match pyInt? (dGet d "port" (.pint 5004)), pyInt? (dGet d "channels" (.pint 2)),
      pyInt? (dGet d "buffer_time" (.pint 100000)),
      pyInt? (dGet d "latency_time" (.pint 5000000)) with
  | some port, some channels, some buffer_time, some latency_time =>
    some
      { stream_id := pyStr (dGet d "id" (.pstr ""))
        kind := dGet d "kind" (.pstr "receiver")
        ip := dGet d "ip" (.pstr "239.69.0.1")
        port := port
        device := dGet d "device" (.pstr "default")
        iface := dGet d "iface" (.pstr "eth0")
        channels := channels
        loopback := pyTruthy (dGet d "loopback" (.pbool false))
        buffer_time := buffer_time
        latency_time := latency_time
        sync := pyTruthy (dGet d "sync" (.pbool false))
        format := pyStr (dGet d "format" (.pstr "S24BE")) }
  | _, _, _, _ => none

/-- `AES67Stream._get_alsa_device_string`: format an ALSA device string.
`default` passes through; a string containing a colon passes through;
anything else gets the `hw:` marker prepended. -/
def getAlsaDeviceString (device_name : String) : String :=
  if device_name = "default" then device_name
  else if strContainsChar device_name ':' then device_name
  else "hw:" ++ device_name

/-- The sender branch of `AES67Stream._build_pipeline_string`. -/
def senderPipeline (c : StreamConfig) (device_str : String) : String :=
  "alsasrc device=" ++ device_str ++ " buffer-time=" ++ pyIntStr c.buffer_time ++
    " latency-time=" ++ pyIntStr c.latency_time ++ " ! " ++
    "audioconvert ! " ++
    "audioresample ! " ++
    "audio/x-raw,format=" ++ c.format ++ ",rate=48000,channels=" ++ pyIntStr c.channels ++ " ! " ++
    "rtpL24pay mtu=1400 max-ptime=5000000 ! " ++
    "udpsink host=" ++ pyStr c.ip ++ " port=" ++ pyIntStr c.port ++ " " ++
    "auto-multicast=true multicast-iface=" ++ pyStr c.iface ++ " " ++
    "qos-dscp=46 sync=" ++ (if c.sync then "true" else "false")

/-- The receiver branch of `AES67Stream._build_pipeline_string`. -/
def receiverPipeline (c : StreamConfig) (device_str : String) : String :=
  "udpsrc address=" ++ pyStr c.ip ++ " port=" ++ pyIntStr c.port ++ " " ++
    "auto-multicast=true multicast-iface=" ++ pyStr c.iface ++ " ! " ++
    "application/x-rtp,media=audio,clock-rate=48000,encoding-name=L24,channels=" ++
    pyIntStr c.channels ++ " ! " ++
    "rtpjitterbuffer mode=slave name=jbuf latency=20 ! " ++
    "rtpL24depay ! " ++
    "audioconvert ! " ++
    "alsasink device=" ++ device_str

/-- `AES67Stream._build_pipeline_string`. The device string is formatted
before the kind dispatch (a non-string device raises `TypeError` inside
`_get_alsa_device_string` first); an unrecognized kind raises
`ValueError`. -/
def buildPipelineString (c : StreamConfig) : Except String String :=
  match c.device with
  | .pstr dev =>
    let device_str := getAlsaDeviceString dev
    match c.kind with
    | .pstr "sender" => .ok (senderPipeline c device_str)
    | .pstr "receiver" => .ok (receiverPipeline c device_str)
    | k => .error ("Unknown stream kind: " ++ pyStr k)
  | _ => .error "TypeError: argument is not iterable"

/-- A file-system operation performed by one of the write paths. A
`directWrite` is `open(path, "w")` followed by writing the whole document
in place; a `tempWrite` followed by `moveFile` is the write-to-temporary
plus atomic-replace discipline. -/
inductive FsOp where
  | makedirs (path : String)
  | directWrite (path : String)
  | tempWrite (tmpName : String)
  | moveFile (src : String) (dst : String)
  deriving DecidableEq

/-- `AES67Stream.SUPERVISOR_CONF_DIR`. -/
def supervisorConfDir : String := "/etc/supervisor/conf.d"

/-- The per-stream supervisor unit file path
(`stagepi-stream-{stream_id}.conf` under the conf directory). -/
def supervisorConfPath (stream_id : String) : String :=
  supervisorConfDir ++ "/stagepi-stream-" ++ stream_id ++ ".conf"

/-- The file-system operations of `AES67Stream._create_supervisor_config`:
ensure the conf directory, write the unit definition to a named temporary
file, then `sudo mv` it onto the target path. `tmpName` stands for the
fresh name produced by `tempfile.NamedTemporaryFile`. -/
def createSupervisorConfigOps (stream_id : String) (tmpName : String) : List FsOp :=
  [.makedirs supervisorConfDir, .tempWrite tmpName,
    .moveFile tmpName (supervisorConfPath stream_id)]

/-- `_provider_json_path` in `streams_routes.py`: the `_provider_config_map`
lookup with the `/usr/local/stagepi/etc/<provider>.json` fallback. -/
def providerJsonPath (provider : String) : String :=
  if provider = "aes67" then "/usr/local/stagepi/etc/aes67.json"
  else "/usr/local/stagepi/etc/" ++ provider ++ ".json"

/-- The normalization applied to one stream dict on every write path
(`_write_provider_config`, the add/replace routes, `add_stream`,
`replace_all_streams`): default `enabled` to `True` when the key is
absent, and install the generated id `genId` when `s.get("id")` is falsy. -/
def normalizeStream (genId : String) (s : Dict) : Dict :=
  let s1 := if (dictGet s "enabled").isNone then dictSet s "enabled" (.pbool true) else s
  if pyTruthy ((dictGet s1 "id").getD .pnone) then s1 else dictSet s1 "id" (.pstr genId)

/-- Normalize a list of stream dicts; `gen i` models the fresh
`s-{uuid4().hex[:8]}` string minted at position `i`. -/
def normalizeStreamsGo (gen : Nat → String) : List Dict → Nat → List Dict
  | [], _ => []
  | s :: rest, i => normalizeStream (gen i) s :: normalizeStreamsGo gen rest (i + 1)

/-- Normalization of the whole streams list as done by
`_write_provider_config` and the replace paths. -/
def normalizeStreams (gen : Nat → String) (streams : List Dict) : List Dict :=
  normalizeStreamsGo gen streams 0

/-- `_write_provider_config`: ensure the parent directory, normalize the
streams, then `json.dump` the whole document through `open(path, "w")` —
a direct in-place write of the target file. Returns the performed
file-system operations and the normalized list that was written. -/
def writeProviderConfig (gen : Nat → String) (provider : String) (streams : List Dict) :
    List FsOp × List Dict :=
  let path := providerJsonPath provider
  let normalized := normalizeStreams gen streams
  ([.makedirs "/usr/local/stagepi/etc", .directWrite path], normalized)

/-- The spec's notion of an all-or-nothing write of `target`: the trace
never opens the target for a direct in-place write, and the content
reaches the target by writing a temporary file and atomically moving it
over the target. This definition follows the spec's words and is compared
against the traces of the source's write paths. -/
def specAtomicWrite (target : String) (ops : List FsOp) : Prop :=
  FsOp.directWrite target ∉ ops ∧
    ∃ tmp, FsOp.tempWrite tmp ∈ ops ∧ FsOp.moveFile tmp target ∈ ops

/-- The dict returned by `AES67Stream._get_supervisor_status` (state name,
running flag, raw supervisorctl output). -/
structure SupStatus where
  state : String
  statename : String
  running : Bool
  output : String
  deriving DecidableEq

/-- The external world a start attempt observes: `status k` is what the
`k`-th status query of the supervisor would report (`none` models "no
such process"), and `errorLog` is the current content of the stream's
stderr log file as a list of lines (`none` when the file is absent or
unreadable). -/
structure SupervisorEnv where
  status : Nat → Option SupStatus
  errorLog : Option (List String)

/-- One step performed by `AES67Stream.start` / `AES67Stream.stop`. -/
inductive StartStep where
  | createSupervisorConfig (autostart : Bool)
  | supervisorUpdate
  | sleepMs (ms : Nat)
  | statusQuery
  | stopProgram
  | removeProgram
  deriving DecidableEq

/-- `AES67Stream._get_process_error`: read the tail (last 20 lines) of the
stderr log, match known GStreamer failure signatures in priority order,
fall back to the bounded raw tail when the text merely mentions an error
or warning, and return `none` otherwise. -/
def getProcessError (c : StreamConfig) (log : Option (List String)) : Option String :=
  match log with
  | none => none
  | some lines =>
    let error_text := String.join (listTakeRight lines 20)
    let low := strLower error_text
    if strContainsSub low "device is being used by another application" then
      some ("Audio device \x27" ++ pyStr c.device ++
        "\x27 is currently in use by another application")
    else if strContainsSub low "could not open audio device" then
      some ("Could not open audio device \x27" ++ pyStr c.device ++
        "\x27. Check if device exists and permissions are correct")
    else if strContainsSub low "no such device" || strContainsSub low "no such file" then
      some ("Audio device \x27" ++ pyStr c.device ++
        "\x27 not found. Use \x27arecord -l\x27 or \x27aplay -l\x27 to list available devices")
    else if strContainsSub low "not-negotiated" then
      some ("Audio format negotiation failed on device \x27" ++ pyStr c.device ++
        "\x27. Device may not support the requested format (" ++ c.format ++
        ", 48kHz, " ++ pyIntStr c.channels ++ " channels)")
    else if strContainsSub low "error" || strContainsSub low "warning" then
      some (strTakeRight (strStrip error_text) 500)
    else none

/-- The steps `AES67Stream.stop` performs: stop the program, remove it
from the supervisor's active set, and rewrite the unit definition with
autostart disabled (the file is kept). -/
def stopSteps : List StartStep :=
  [.stopProgram, .removeProgram, .createSupervisorConfig false]

/-- The steps `AES67Stream.start` always performs before inspecting the
status: write/refresh the unit definition with the given autostart flag,
issue `supervisorctl update`, sleep 0.5 s once, and query the status
once. -/
def startPreSteps (enabled : Bool) : List StartStep :=
  [.createSupervisorConfig enabled, .supervisorUpdate, .sleepMs 500, .statusQuery]

/-- `AES67Stream.start`: after the pre-steps, the single status query is
inspected. If a status is reported and its state is not `RUNNING`, the
error classified from the stderr log (or, when that is falsy, a generic
message naming the reported state) is raised; the surrounding handler
runs `stop()` before re-raising. When no status is reported, or the state
is `RUNNING`, the start succeeds. Returns the performed steps and the
outcome. -/
def startStream (env : SupervisorEnv) (c : StreamConfig) (enabled : Bool) :
    List StartStep × Except String Unit :=
  match env.status 0 with
  | some st =>
    if st.state = "RUNNING" then (startPreSteps enabled, .ok ())
    else
      let msg :=
        match getProcessError c env.errorLog with
        | some m => if m = "" then "Stream failed to start: " ++ st.statename else m
        | none => "Stream failed to start: " ++ st.statename
      (startPreSteps enabled ++ stopSteps, .error msg)
  | none => (startPreSteps enabled, .ok ())

/-- The sub-dict `{k: stream_data.get(k) for k in keys}` used for the
config summaries in error messages and failure records. -/
def configSummary (d : Dict) (keys : List String) : Dict :=
  keys.map (fun k => (k, (dictGet d k).getD .pnone))

/-- `_sync_stream_to_gstreamer`: raise `ValueError` when the dict cannot
be converted to a `StreamConfig`; for an enabled stream construct an
`AES67Stream` (whose constructor builds the pipeline and can raise) and
start it, wrapping any failure in the detailed `RuntimeError` message; for
a disabled stream the config file is rewritten with autostart off and any
failure is swallowed (only logged). `envOf` supplies the supervisor
environment observed for a given stream id. -/
def syncStreamToGstreamer (envOf : String → SupervisorEnv) (d : Dict) : Except String Unit :=
  let stream_id := pyStr (dGet d "id" (.pstr ""))
  let enabled := pyTruthy (dGet d "enabled" (.pbool true))
  match dictToStreamConfig d with
  | none =>
    .error ("Invalid stream configuration for \x27" ++ stream_id ++
      "\x27. Required fields: kind, ip, port, device, iface. Got: " ++
      dictRepr (configSummary d ["kind", "device", "ip", "port"]))
  | some config =>
    if enabled then
      match buildPipelineString config with
      | .error e =>
        .error ("Failed to start " ++ pyStr config.kind ++ " stream \x27" ++ stream_id ++
          "\x27 on device \x27" ++ pyStr config.device ++ "\x27: " ++ e)
      | .ok _ =>
        match (startStream (envOf stream_id) config true).2 with
        | .error e =>
          .error ("Failed to start " ++ pyStr config.kind ++ " stream \x27" ++ stream_id ++
            "\x27 on device \x27" ++ pyStr config.device ++ "\x27: " ++ e)
        | .ok _ => .ok ()
    else .ok ()

/-- One entry of the failure list built by `_sync_all_streams_to_gstreamer`:
the stream id, the error text, and the kind/device/ip/port/enabled config
summary. -/
structure FailRecord where
  id : String
  error : String
  config : Dict
  deriving DecidableEq

/-- Whether syncing the dict `d` raises. -/
def syncFails (envOf : String → SupervisorEnv) (d : Dict) : Bool :=
  match syncStreamToGstreamer envOf d with
  | .ok _ => false
  | .error _ => true

/-- The error text with which syncing `d` fails (empty when it succeeds). -/
def syncErrText (envOf : String → SupervisorEnv) (d : Dict) : String :=
  match syncStreamToGstreamer envOf d with
  | .ok _ => ""
  | .error e => e

/-- The failure record `_sync_all_streams_to_gstreamer` appends for a
stream dict that failed to sync. -/
def mkFailRecord (envOf : String → SupervisorEnv) (d : Dict) : FailRecord :=
  { id := pyStr (dGet d "id" (.pstr "unknown"))
    error := syncErrText envOf d
    config := configSummary d ["kind", "device", "ip", "port", "enabled"] }

/-- The per-stream loop of `_sync_all_streams_to_gstreamer`: attempt to
sync every entry, catch any failure at the per-stream boundary and append
its record to the failure list, and continue with the remaining entries.
(The function also stops streams whose ids are no longer in the config
before this loop; that touches only manager state for ids outside the
list processed here.) -/
def syncAllStep (envOf : String → SupervisorEnv) (failed_streams : List FailRecord)
    (stream_data : Dict) : List FailRecord :=
  match syncStreamToGstreamer envOf stream_data with
  | .ok _ => failed_streams
  | .error e =>
    failed_streams ++
      [{ id := pyStr (dGet stream_data "id" (.pstr "unknown"))
         error := e
         config := configSummary stream_data ["kind", "device", "ip", "port", "enabled"] }]

/-- The failure list accumulated over the whole streams list. -/
def syncAllStreamsToGstreamer (envOf : String → SupervisorEnv) (streams : List Dict) :
    List FailRecord :=
  streams.foldl (syncAllStep envOf) []

/-- The supervisor conf directory as a registry: one parsed unit file per
stream id. This is the persistent store behind `get_stream_by_id`,
`update_stream` and `delete_stream` in `stream_manager.py`. -/
abbrev Registry := List (String × Dict)

/-- `get_stream_by_id` / `_read_supervisor_config`: the stored config for
the id, or `none` when no unit file for that id exists. -/
def getStreamById (reg : Registry) (stream_id : String) : Option Dict :=
  match reg with
  | [] => none
  | (sid, d) :: rest => if sid = stream_id then some d else getStreamById rest stream_id

/-- Remove the unit file for `stream_id` (the `sudo rm` of `delete_stream`). -/
def regErase (reg : Registry) (stream_id : String) : Registry :=
  match reg with
  | [] => []
  | (sid, d) :: rest =>
    if sid = stream_id then regErase rest stream_id else (sid, d) :: regErase rest stream_id

/-- Store `d` as the unit file for `stream_id` (the rewrite performed when
a stream is re-synced). -/
def regSet (reg : Registry) (stream_id : String) (d : Dict) : Registry :=
  match reg with
  | [] => [(stream_id, d)]
  | (sid, d') :: rest =>
    if sid = stream_id then (sid, d) :: rest else (sid, d') :: regSet rest stream_id d

/-- The merge performed by the core `update_stream`: shallow overwrite of
the existing config by the update, `enabled` defaulted when absent, and
the `id` field forced back to the target stream id. -/
def coreMergeUpdate (existing upd : Dict) (stream_id : String) : Dict :=
  let merged := dictMerge existing upd
  let merged :=
    if (dictGet merged "enabled").isNone then dictSet merged "enabled" (.pbool true) else merged
  dictSet merged "id" (.pstr stream_id)

/-- The core `update_stream`: `ValueError` when the id has no stored
config (the registry is untouched — the existence check precedes every
side effect); otherwise the merged config is re-synced, rewriting the
unit file for that id. -/
def coreUpdateStream (reg : Registry) (stream_id : String) (upd : Dict) :
    Except String Registry :=
  match getStreamById reg stream_id with
  | none => .error ("Stream " ++ stream_id ++ " not found")
  | some existing => .ok (regSet reg stream_id (coreMergeUpdate existing upd stream_id))

/-- The core `delete_stream`: `ValueError` when the id has no stored
config (the registry is untouched); otherwise the stream is stopped and
its unit file removed. -/
def coreDeleteStream (reg : Registry) (stream_id : String) : Except String Registry :=
  match getStreamById reg stream_id with
  | none => .error ("Stream " ++ stream_id ++ " not found")
  | some _ => .ok (regErase reg stream_id)

/-- The core `replace_all_streams`: normalize every entry (default
`enabled`, generate missing ids), then delete removed streams and re-sync;
the normalized input list is returned as the new registry content. Only
the returned list is modelled here — the deletion and re-sync side
effects do not alter it. -/
def replaceAllStreams (gen : Nat → String) (streams : List Dict) : List Dict :=
  normalizeStreams gen streams

/-- `str(s.get("id", i))` in the HTTP routes: the id field printed with
Python `str`, falling back to the printed position when the key is
absent. -/
def idStrAt (s : Dict) (i : Nat) : String :=
  match dictGet s "id" with
  | some v => pyStr v
  | none => pyNatStr i

/-- The match condition of the PATCH/DELETE routes for the entry at
position `i`: `str(s.get("id", i)) == str(stream_id) or str(i) ==
str(stream_id)`. -/
def matchesEntry (s : Dict) (i : Nat) (stream_id : String) : Bool :=
  idStrAt s i = stream_id || pyNatStr i = stream_id

/-- The merge performed by the PATCH route: shallow overwrite by the
fields set in the request, `enabled` defaulted when absent, and — only
when the merged `id` is falsy — the id restored from the matched entry or
freshly generated (`merged["id"] = s.get("id") or "s-..."`). -/
def apiMerge (s upd : Dict) (genId : String) : Dict :=
  let merged := dictMerge s upd
  let merged :=
    if (dictGet merged "enabled").isNone then dictSet merged "enabled" (.pbool true) else merged
  if pyTruthy ((dictGet merged "id").getD .pnone) then merged
  else
    dictSet merged "id"
      (if pyTruthy ((dictGet s "id").getD .pnone) then (dictGet s "id").getD .pnone
       else .pstr genId)

/-- The scan of the PATCH route: find the first entry matching
`stream_id` (by id string or by position), replace it with the merged
dict, and stop; `none` when no entry matches. -/
def routeUpdateGo (stream_id : String) (upd : Dict) (genId : String) :
    List Dict → Nat → Option (List Dict)
  | [], _ => none
  | s :: rest, i =>
    if matchesEntry s i stream_id then some (apiMerge s upd genId :: rest)
    else
      match routeUpdateGo stream_id upd genId rest (i + 1) with
      | some rest' => some (s :: rest')
      | none => none

/-- `PATCH /streams/{stream_id}`: replace the first matching entry with
the merged dict, or answer 404 when nothing matches. -/
def routeUpdateStream (streams : List Dict) (stream_id : String) (upd : Dict)
    (genId : String) : Except Nat (List Dict) :=
  match routeUpdateGo stream_id upd genId streams 0 with
  | some streams' => .ok streams'
  | none => .error 404

/-- The scan of the DELETE route: drop every entry matching `stream_id`
(there is no early exit in the source loop) and report whether any entry
matched. -/
def routeDeleteGo (stream_id : String) : List Dict → Nat → List Dict × Bool
  | [], _ => ([], false)
  | s :: rest, i =>
    let (tail, found) := routeDeleteGo stream_id rest (i + 1)
    if matchesEntry s i stream_id then (tail, true) else (s :: tail, found)

/-- `DELETE /streams/{stream_id}`: remove the matching entries, or answer
404 when nothing matches. -/
def routeDeleteStream (streams : List Dict) (stream_id : String) : Except Nat (List Dict) :=
  let (new_streams, found) := routeDeleteGo stream_id streams 0
  if found then .ok new_streams else .error 404

/-- The observable condition of the per-provider JSON document when
`_read_provider_config` opens it: absent, present but unreadable, present
with invalid JSON, valid JSON that is not an object, or a valid object
whose `streams` key holds the given list (or is absent). -/
inductive ProviderFile where
  | missing
  | unreadable
  | invalidJson
  | nonDict
  | validDoc (streamsField : Option (List Dict))

/-- `_read_provider_config`: a missing file yields the empty stream list;
any exception while opening, parsing, or normalizing the document is
caught and also yields the empty stream list; a valid document gets
`streams` defaulted to `[]` and `enabled` defaulted to `True` on each
entry. Returns the resulting streams list. -/
def readProviderConfig (f : ProviderFile) : List Dict :=
  match f with
  | .missing => []
  | .unreadable => []
  | .invalidJson => []
  | .nonDict => []
  | .validDoc streamsField =>
    (streamsField.getD []).map
      (fun s => if (dictGet s "enabled").isNone then dictSet s "enabled" (.pbool true) else s)

/-!
Concrete fixtures used to instantiate the theorems below.
-/

/-- A fresh-id supply producing nonempty ids. -/
def genW : Nat → String := fun n => "s-w" ++ pyNatStr n

/-- A supervisor status reporting a running process. -/
def stRunning : SupStatus :=
  { state := "RUNNING", statename := "RUNNING", running := true
    output := "stagepi-stream-w1 RUNNING pid 100, uptime 0:00:01" }

/-- A supervisor status reporting a starting (not yet running) process. -/
def stStarting : SupStatus :=
  { state := "STARTING", statename := "STARTING", running := false
    output := "stagepi-stream-w1 STARTING" }

/-- A supervisor status reporting a terminally failed process. -/
def stFatal : SupStatus :=
  { state := "FATAL", statename := "FATAL", running := false
    output := "stagepi-stream-w1 FATAL Exited too quickly" }

/-- An environment whose streams come up immediately. -/
def envRunning : SupervisorEnv :=
  { status := fun _ => some stRunning, errorLog := none }

/-- The per-stream environment in which every stream starts cleanly. -/
def envOfW : String → SupervisorEnv := fun _ => envRunning

/-- An environment that would report RUNNING from the second status query
on, but reports STARTING on the first. -/
def envPollTwice : SupervisorEnv :=
  { status := fun k => if k = 0 then some stStarting else some stRunning
    errorLog := none }

/-- An environment reporting a FATAL process with a diagnosable stderr
log. -/
def envFatal : SupervisorEnv :=
  { status := fun _ => some stFatal
    errorLog := some ["ERROR: Could not open audio device hw:0,0\n"] }

/-- A well-formed sender stream dict. -/
def goodSenderW : Dict :=
  [("id", .pstr "a1"), ("kind", .pstr "sender"), ("ip", .pstr "239.69.0.1"),
    ("port", .pint 5004), ("device", .pstr "hw:0,0"), ("iface", .pstr "eth0")]

/-- A stream dict with an invalid configuration: its `port` cannot be
converted by `int(...)`. -/
def badStreamW : Dict :=
  [("id", .pstr "bad"), ("kind", .pstr "sender"), ("ip", .pstr "239.69.0.2"),
    ("port", .pstr "nope"), ("device", .pstr "hw:1,0"), ("iface", .pstr "eth0")]

/-- A well-formed receiver stream dict. -/
def goodReceiverW : Dict :=
  [("id", .pstr "a2"), ("kind", .pstr "receiver"), ("ip", .pstr "239.69.0.3"),
    ("port", .pint 5006), ("device", .pstr "default"), ("iface", .pstr "eth0")]

/-- Three streams of which exactly the middle one fails to sync. -/
def streamsW : List Dict := [goodSenderW, badStreamW, goodReceiverW]

/-- A concrete well-typed sender configuration. -/
def cfgW : StreamConfig :=
  { stream_id := "w1", kind := .pstr "sender", ip := .pstr "239.69.0.1", port := 5004
    device := .pstr "hw:0,0", iface := .pstr "eth0", channels := 2, loopback := false
    buffer_time := 100000, latency_time := 5000000, sync := false, format := "S24BE" }

/-- An existing stream dict with id `a`. -/
def caExisting : Dict := [("id", .pstr "a"), ("port", .pint 5004)]

/-- A partial update supplying a different id `b`. -/
def caUpd : Dict := [("id", .pstr "b")]

/-- A partial update not touching the id. -/
def caUpdFmt : Dict := [("format", .pstr "S32LE")]

/-- A stream dict carrying an explicit id `x`, used twice to exhibit an
id collision. -/
def dupX : Dict := [("id", .pstr "x")]

/-- A registry entry dict with id `abc`. -/
def streamAbc : Dict := [("id", .pstr "abc")]

/-- A registry entry dict with id `def2`. -/
def streamDef2 : Dict := [("id", .pstr "def2")]

/-- A one-entry core registry holding `streamAbc` under its id. -/
def regW : Registry := [("abc", streamAbc)]

/-!
Helper lemmas.
-/

theorem dictGet_set_eq (d : Dict) (k : String) (v : PyVal) :
    dictGet (dictSet d k v) k = some v := by
  induction d with
  | nil => simp [dictSet, dictGet]
  | cons p rest ih =>
    by_cases h : p.1 = k
    · simp [dictSet, dictGet, h]
    · simp [dictSet, dictGet, h, ih]

theorem dictGet_set_ne (d : Dict) (k k' : String) (v : PyVal) (h : k' ≠ k) :
    dictGet (dictSet d k' v) k = dictGet d k := by
  have h2 : ¬ k = k' := fun hc => h hc.symm
  induction d with
  | nil => simp [dictSet, dictGet, h]
  | cons p rest ih =>
    by_cases hp : p.1 = k'
    · have hkne : ¬ p.1 = k := by rw [hp]; exact h
      simp [dictSet, dictGet, hp, hkne, h]
    · by_cases hk : p.1 = k
      · simp [dictSet, dictGet, hp, hk, h2]
      · simp [dictSet, dictGet, hp, hk, ih]

theorem dictGet_none_keys (b : Dict) (k : String) (h : dictGet b k = none) :
    ∀ p ∈ b, p.1 ≠ k := by
  induction b with
  | nil => simp
  | cons p rest ih =>
    intro q hq
    by_cases hp : p.1 = k
    · simp [dictGet, hp] at h
    · rcases List.mem_cons.mp hq with h1 | h1
      · simpa [h1] using hp
      · exact ih (by simpa [dictGet, hp] using h) q h1

theorem dictGet_foldl_set_ne (k : String) :
    ∀ (b : Dict) (a : Dict), (∀ p ∈ b, p.1 ≠ k) →
      dictGet (b.foldl (fun acc kv => dictSet acc kv.1 kv.2) a) k = dictGet a k := by
  intro b
  induction b with
  | nil => intro a _; rfl
  | cons p rest ih =>
    intro a hb
    rw [List.foldl_cons, ih _ (fun q hq => hb q (List.mem_cons_of_mem p hq))]
    exact dictGet_set_ne a k p.1 p.2 (hb p (List.mem_cons_self p rest))

theorem dictGet_merge_none (a b : Dict) (k : String) (h : dictGet b k = none) :
    dictGet (dictMerge a b) k = dictGet a k :=
  dictGet_foldl_set_ne k b a (dictGet_none_keys b k h)

theorem dictGet_enabled_default (d : Dict) (k : String) (v : PyVal)
    (h : dictGet d k = some v) :
    dictGet (if (dictGet d "enabled").isNone then dictSet d "enabled" (.pbool true) else d) k
      = some v := by
  by_cases hk : k = "enabled"
  · subst hk
    simp [h]
  · by_cases he : (dictGet d "enabled").isNone
    · rw [if_pos he, dictGet_set_ne d k "enabled" (.pbool true) (fun hc => hk hc.symm)]
      exact h
    · rw [if_neg he]
      exact h

theorem decDigitsRevGo_fuel : ∀ (f₁ : Nat), ∀ (f₂ n : Nat), n ≤ f₁ → n ≤ f₂ →
    decDigitsRevGo f₁ n = decDigitsRevGo f₂ n := by
  intro f₁
  induction f₁ with
  | zero =>
    intro f₂ n h1 _
    have hn : n = 0 := by omega
    subst hn
    cases f₂ <;> rfl
  | succ f ih =>
    intro f₂ n h1 h2
    cases n with
    | zero => cases f₂ <;> rfl
    | succ n =>
      cases f₂ with
      | zero => omega
      | succ f₂ =>
        simp only [decDigitsRevGo]
        rw [ih f₂ ((n + 1) / 10) (by omega) (by omega)]

theorem decDigitsRev_zero : decDigitsRev 0 = [] := rfl

theorem decDigitsRev_succ (n : Nat) :
    decDigitsRev (n + 1) = ((n + 1) % 10) :: decDigitsRev ((n + 1) / 10) := by
  show decDigitsRevGo (n + 1) (n + 1) = ((n + 1) % 10) :: decDigitsRevGo ((n + 1) / 10) ((n + 1) / 10)
  simp only [decDigitsRevGo]
  rw [decDigitsRevGo_fuel n ((n + 1) / 10) ((n + 1) / 10) (by omega) (by omega)]

theorem decDigitsRev_inj (m : Nat) : ∀ n, decDigitsRev m = decDigitsRev n → m = n := by
  induction m using Nat.strong_induction_on with
  | _ m ih =>
    intro n h
    cases m with
    | zero =>
      cases n with
      | zero => rfl
      | succ n =>
        rw [decDigitsRev_zero, decDigitsRev_succ] at h
        exact absurd h (by simp)
    | succ m =>
      cases n with
      | zero =>
        rw [decDigitsRev_succ, decDigitsRev_zero] at h
        exact absurd h (by simp)
      | succ n =>
        rw [decDigitsRev_succ, decDigitsRev_succ] at h
        injection h with h1 h2
        have hd := ih ((m + 1) / 10) (Nat.div_lt_self (Nat.succ_pos m) (by omega))
          ((n + 1) / 10) h2
        omega

theorem decDigitsRev_lt10 (n : Nat) : ∀ d ∈ decDigitsRev n, d < 10 := by
  induction n using Nat.strong_induction_on with
  | _ n ih =>
    cases n with
    | zero => simp [decDigitsRev_zero]
    | succ n =>
      rw [decDigitsRev_succ]
      intro d hd
      rcases List.mem_cons.mp hd with h1 | h1
      · omega
      · exact ih ((n + 1) / 10) (Nat.div_lt_self (Nat.succ_pos n) (by omega)) d h1

theorem decDigitsRev_ne_single_zero (n : Nat) (h : n ≠ 0) : decDigitsRev n ≠ [0] := by
  cases n with
  | zero => exact absurd rfl h
  | succ n =>
    rw [decDigitsRev_succ]
    intro hc
    injection hc with h1 h2
    have h3 : (n + 1) / 10 = 0 := decDigitsRev_inj _ 0 (by rw [h2, decDigitsRev_zero])
    omega

theorem decDigits_lt10 (n : Nat) : ∀ d ∈ decDigits n, d < 10 := by
  unfold decDigits
  by_cases h : n = 0
  · simp [h]
  · rw [if_neg h]
    intro d hd
    exact decDigitsRev_lt10 n d (List.mem_reverse.mp hd)

theorem decDigits_inj (m n : Nat) (h : decDigits m = decDigits n) : m = n := by
  unfold decDigits at h
  by_cases hm : m = 0 <;> by_cases hn : n = 0
  · omega
  · rw [if_pos hm, if_neg hn] at h
    have : decDigitsRev n = [0] := by
      rw [← List.reverse_reverse (decDigitsRev n), ← h]
      rfl
    exact absurd this (decDigitsRev_ne_single_zero n hn)
  · rw [if_neg hm, if_pos hn] at h
    have : decDigitsRev m = [0] := by
      rw [← List.reverse_reverse (decDigitsRev m), h]
      rfl
    exact absurd this (decDigitsRev_ne_single_zero m hm)
  · rw [if_neg hm, if_neg hn] at h
    exact decDigitsRev_inj m n (List.reverse_injective h)

theorem digitChar_inj_lt10 : ∀ a < 10, ∀ b < 10, Nat.digitChar a = Nat.digitChar b → a = b := by
  decide

theorem map_digitChar_inj :
    ∀ (l1 l2 : List Nat), (∀ d ∈ l1, d < 10) → (∀ d ∈ l2, d < 10) →
      l1.map Nat.digitChar = l2.map Nat.digitChar → l1 = l2 := by
  intro l1
  induction l1 with
  | nil =>
    intro l2 _ _ h
    cases l2 with
    | nil => rfl
    | cons b bs => exact absurd h (by simp)
  | cons a as ih =>
    intro l2 h1 h2 h
    cases l2 with
    | nil => exact absurd h (by simp)
    | cons b bs =>
      simp only [List.map_cons, List.cons.injEq] at h
      have ha : a = b :=
        digitChar_inj_lt10 a (h1 a (List.mem_cons_self a as)) b
          (h2 b (List.mem_cons_self b bs)) h.1
      have hs : as = bs :=
        ih bs (fun d hd => h1 d (List.mem_cons_of_mem a hd))
          (fun d hd => h2 d (List.mem_cons_of_mem b hd)) h.2
      rw [ha, hs]

theorem pyNatStr_inj (m n : Nat) (h : pyNatStr m = pyNatStr n) : m = n := by
  unfold pyNatStr at h
  have hdata : (decDigits m).map Nat.digitChar = (decDigits n).map Nat.digitChar :=
    congrArg String.data h
  exact decDigits_inj m n (map_digitChar_inj _ _ (decDigits_lt10 m) (decDigits_lt10 n) hdata)

theorem pyNatStr_ne (m n : Nat) (h : m ≠ n) : pyNatStr m ≠ pyNatStr n :=
  fun hc => h (pyNatStr_inj m n hc)

theorem syncAllStep_eq (envOf : String → SupervisorEnv) (acc : List FailRecord) (d : Dict) :
    syncAllStep envOf acc d =
      if syncFails envOf d then acc ++ [mkFailRecord envOf d] else acc := by
  cases hs : syncStreamToGstreamer envOf d with
  | ok u => simp [syncAllStep, syncFails, hs]
  | error e => simp [syncAllStep, syncFails, mkFailRecord, syncErrText, hs]

theorem syncAll_foldl (envOf : String → SupervisorEnv) :
    ∀ (l : List Dict) (acc : List FailRecord),
      List.foldl (syncAllStep envOf) acc l
        = acc ++ (l.filter (syncFails envOf)).map (mkFailRecord envOf) := by
  intro l
  induction l with
  | nil => intro acc; simp
  | cons d rest ih =>
    intro acc
    rw [List.foldl_cons, syncAllStep_eq]
    by_cases hf : syncFails envOf d
    · rw [if_pos hf, ih, List.filter_cons_of_pos hf]
      simp
    · rw [if_neg hf, ih, List.filter_cons_of_neg hf]

theorem normalizeStream_spec (genId : String) (h : genId ≠ "") (s : Dict) :
    (dictGet (normalizeStream genId s) "enabled").isSome
      ∧ ∃ v, dictGet (normalizeStream genId s) "id" = some v ∧ pyTruthy v = true := by
  unfold normalizeStream
  have hen : (dictGet
      (if (dictGet s "enabled").isNone then dictSet s "enabled" (.pbool true) else s)
      "enabled").isSome := by
    by_cases he : (dictGet s "enabled").isNone
    · rw [if_pos he, dictGet_set_eq]
      rfl
    · rw [if_neg he]
      cases hv : dictGet s "enabled" with
      | none => exact absurd (by rw [hv]; rfl) he
      | some v => rfl
  set s1 := if (dictGet s "enabled").isNone then dictSet s "enabled" (.pbool true) else s with hs1
  by_cases ht : pyTruthy ((dictGet s1 "id").getD .pnone)
  · rw [if_pos ht]
    refine ⟨hen, ?_⟩
    cases hv : dictGet s1 "id" with
    | none => rw [hv] at ht; exact absurd ht (by simp [pyTruthy])
    | some v =>
      rw [hv] at ht
      exact ⟨v, rfl, ht⟩
  · rw [if_neg ht]
    constructor
    · rw [dictGet_set_ne s1 "enabled" "id" (.pstr genId) (by decide)]
      exact hen
    · refine ⟨.pstr genId, dictGet_set_eq s1 "id" (.pstr genId), ?_⟩
      simp [pyTruthy, h]

theorem normalizeStreamsGo_spec (gen : Nat → String) (hgen : ∀ n, gen n ≠ "") :
    ∀ (l : List Dict) (i : Nat) (d : Dict), d ∈ normalizeStreamsGo gen l i →
      (dictGet d "enabled").isSome
        ∧ ∃ v, dictGet d "id" = some v ∧ pyTruthy v = true := by
  intro l
  induction l with
  | nil => intro i d hd; simp [normalizeStreamsGo] at hd
  | cons s rest ih =>
    intro i d hd
    rcases List.mem_cons.mp hd with h1 | h1
    · rw [h1]
      exact normalizeStream_spec (gen i) (hgen i) s
    · exact ih (i + 1) d h1

theorem getStreamById_regErase (reg : Registry) (sid : String) :
    getStreamById (regErase reg sid) sid = none := by
  induction reg with
  | nil => rfl
  | cons p rest ih =>
    by_cases h : p.1 = sid
    · simp only [regErase]
      rw [if_pos h]
      exact ih
    · simp only [regErase]
      rw [if_neg h]
      simp only [getStreamById]
      rw [if_neg h]
      exact ih

theorem matchesEntry_false (s : Dict) (i : Nat) (sid : String)
    (h1 : ∀ v, dictGet s "id" = some v → pyStr v ≠ sid) (h2 : pyNatStr i ≠ sid) :
    matchesEntry s i sid = false := by
  have hid : idStrAt s i ≠ sid := by
    unfold idStrAt
    cases hv : dictGet s "id" with
    | none => exact h2
    | some v => exact h1 v hv
  simp [matchesEntry, hid, h2]

theorem string_append_ne_empty (s t : String) (h : s.length ≠ 0) : s ++ t ≠ "" := by
  intro he
  have hl := congrArg String.length he
  rw [String.length_append] at hl
  have h0 : ("" : String).length = 0 := rfl
  omega

theorem routeUpdateGo_none (sid : String) (upd : Dict) (genId : String) :
    ∀ (l : List Dict) (off : Nat),
      (∀ k, k < l.length → pyNatStr (off + k) ≠ sid) →
      (∀ s ∈ l, ∀ v, dictGet s "id" = some v → pyStr v ≠ sid) →
      routeUpdateGo sid upd genId l off = none := by
  intro l
  induction l with
  | nil => intro off _ _; rfl
  | cons s rest ih =>
    intro off hidx hid
    have hoff : pyNatStr off ≠ sid := by
      have := hidx 0 (by simp)
      simpa using this
    have hm : matchesEntry s off sid = false :=
      matchesEntry_false s off sid (hid s (List.mem_cons_self s rest)) hoff
    simp only [routeUpdateGo, hm, Bool.false_eq_true, if_false]
    rw [ih (off + 1)
      (fun k hk => by
        have heq : off + 1 + k = off + (k + 1) := by omega
        rw [heq]
        exact hidx (k + 1) (by simpa using Nat.succ_lt_succ hk))
      (fun q hq => hid q (List.mem_cons_of_mem s hq))]

theorem routeDeleteGo_none (sid : String) :
    ∀ (l : List Dict) (off : Nat),
      (∀ k, k < l.length → pyNatStr (off + k) ≠ sid) →
      (∀ s ∈ l, ∀ v, dictGet s "id" = some v → pyStr v ≠ sid) →
      routeDeleteGo sid l off = (l, false) := by
  intro l
  induction l with
  | nil => intro off _ _; rfl
  | cons s rest ih =>
    intro off hidx hid
    have hoff : pyNatStr off ≠ sid := by
      have := hidx 0 (by simp)
      simpa using this
    have hm : matchesEntry s off sid = false :=
      matchesEntry_false s off sid (hid s (List.mem_cons_self s rest)) hoff
    simp only [routeDeleteGo]
    rw [ih (off + 1)
      (fun k hk => by
        have heq : off + 1 + k = off + (k + 1) := by omega
        rw [heq]
        exact hidx (k + 1) (by simpa using Nat.succ_lt_succ hk))
      (fun q hq => hid q (List.mem_cons_of_mem s hq))]
    simp [hm]

theorem routeUpdateGo_at (n : Nat) (upd : Dict) (genId : String) :
    ∀ (l : List Dict) (off j : Nat) (hj : j < l.length),
      off + j = n →
      (∀ s ∈ l, ∀ v, dictGet s "id" = some v → pyStr v ≠ pyNatStr n) →
      routeUpdateGo (pyNatStr n) upd genId l off
        = some (l.set j (apiMerge (l.get ⟨j, hj⟩) upd genId)) := by
  intro l
  induction l with
  | nil => intro off j hj; simp at hj
  | cons s rest ih =>
    intro off j hj hoff hid
    cases j with
    | zero =>
      have hoff0 : off = n := by omega
      have hm : matchesEntry s off (pyNatStr n) = true := by
        simp [matchesEntry, hoff0]
      simp only [routeUpdateGo, hm, if_true]
      rfl
    | succ j =>
      have hne : off ≠ n := by omega
      have hm : matchesEntry s off (pyNatStr n) = false :=
        matchesEntry_false s off (pyNatStr n) (hid s (List.mem_cons_self s rest))
          (pyNatStr_ne off n hne)
      simp only [routeUpdateGo, hm, Bool.false_eq_true, if_false]
      rw [ih (off + 1) j (by simpa using Nat.lt_of_succ_lt_succ hj) (by omega)
        (fun q hq => hid q (List.mem_cons_of_mem s hq))]
      rfl

theorem routeDeleteGo_at (n : Nat) :
    ∀ (l : List Dict) (off j : Nat), j < l.length →
      off + j = n →
      (∀ s ∈ l, ∀ v, dictGet s "id" = some v → pyStr v ≠ pyNatStr n) →
      routeDeleteGo (pyNatStr n) l off = (l.eraseIdx j, true) := by
  intro l
  induction l with
  | nil => intro off j hj; simp at hj
  | cons s rest ih =>
    intro off j hj hoff hid
    cases j with
    | zero =>
      have hoff0 : off = n := by omega
      have hm : matchesEntry s off (pyNatStr n) = true := by
        simp [matchesEntry, hoff0]
      have hrest : routeDeleteGo (pyNatStr n) rest (off + 1) = (rest, false) :=
        routeDeleteGo_none (pyNatStr n) rest (off + 1)
          (fun k _ => pyNatStr_ne (off + 1 + k) n (by omega))
          (fun q hq => hid q (List.mem_cons_of_mem s hq))
      simp only [routeDeleteGo, hrest, hm, if_true]
      rfl
    | succ j =>
      have hne : off ≠ n := by omega
      have hm : matchesEntry s off (pyNatStr n) = false :=
        matchesEntry_false s off (pyNatStr n) (hid s (List.mem_cons_self s rest))
          (pyNatStr_ne off n hne)
      have hrest := ih (off + 1) j (by simpa using Nat.lt_of_succ_lt_succ hj) (by omega)
        (fun q hq => hid q (List.mem_cons_of_mem s hq))
      simp only [routeDeleteGo, hrest, hm, Bool.false_eq_true, if_false]
      rfl

/-!
Claim theorems.
-/

/-- C5: the device-normalization function has exactly three branches: the
literal `default` maps to itself, any string containing a colon maps to
itself unchanged, and any other string is returned with the fixed `hw:`
prefixed (so `card0` becomes `hw:card0`). -/
theorem claim5_alsa_device_normalization :
    getAlsaDeviceString "default" = "default"
    ∧ (∀ s : String, strContainsChar s ':' = true → getAlsaDeviceString s = s)
    ∧ (∀ s : String, s ≠ "default" → strContainsChar s ':' = false →
        getAlsaDeviceString s = "hw:" ++ s) := by
  refine ⟨rfl, ?_, ?_⟩
  · intro s hc
    unfold getAlsaDeviceString
    by_cases hd : s = "default"
    · rw [if_pos hd]
    · rw [if_neg hd, if_pos hc]
  · intro s hd hc
    unfold getAlsaDeviceString
    rw [if_neg hd, if_neg (by rw [hc]; exact Bool.false_ne_true)]

/-- Witness for C5: all three branches evaluated at concrete devices. -/
theorem claim5_alsa_device_normalization_witness :
    getAlsaDeviceString "default" = "default"
    ∧ getAlsaDeviceString "plughw:1,0" = "plughw:1,0"
    ∧ getAlsaDeviceString "card0" = "hw:card0" :=
  ⟨claim5_alsa_device_normalization.1,
    claim5_alsa_device_normalization.2.1 "plughw:1,0" (by decide),
    claim5_alsa_device_normalization.2.2 "card0" (by decide) (by decide)⟩

/-- C10: reading the provider registry document never raises — a missing,
unreadable, syntactically invalid, or non-object document all yield the
empty stream list, indistinguishable from an empty registry. -/
theorem claim10_read_provider_config_total :
    readProviderConfig .missing = []
    ∧ readProviderConfig .unreadable = []
    ∧ readProviderConfig .invalidJson = []
    ∧ readProviderConfig .nonDict = [] :=
  ⟨rfl, rfl, rfl, rfl⟩

/-- C2 counterexample: the write of the per-provider JSON registry
document is not performed through a temporary file plus atomic replace —
the trace of `_write_provider_config` opens the target path for a direct
in-place write. -/
theorem claim2_atomic_write_counterexample :
    ¬ specAtomicWrite (providerJsonPath "aes67")
      (writeProviderConfig genW "aes67" [goodSenderW]).1 := by
  intro h
  exact h.1 (by simp [writeProviderConfig])

/-- C2 (amended): the per-provider JSON registry document is written by a
direct in-place write of the target (no temporary file is involved);
only the supervisor unit definition files are written via a temporary
file atomically moved over the target. -/
theorem claim2_amended_write_paths (provider : String) (gen : Nat → String)
    (streams : List Dict) (stream_id tmpName : String) :
    FsOp.directWrite (providerJsonPath provider) ∈ (writeProviderConfig gen provider streams).1
    ∧ (∀ t, FsOp.tempWrite t ∉ (writeProviderConfig gen provider streams).1)
    ∧ specAtomicWrite (supervisorConfPath stream_id)
        (createSupervisorConfigOps stream_id tmpName) := by
  refine ⟨by simp [writeProviderConfig], fun t => by simp [writeProviderConfig], ?_, ?_⟩
  · simp [createSupervisorConfigOps]
  · exact ⟨tmpName, by simp [createSupervisorConfigOps], by simp [createSupervisorConfigOps]⟩

/-- C3 counterexample: at the HTTP layer, a PATCH whose body supplies a
different `id` does not preserve the original id — updating the stream
with id `a` by a partial carrying id `b` yields a stream whose id is `b`. -/
theorem claim3_update_id_counterexample :
    dictGet caExisting "id" = some (.pstr "a")
    ∧ routeUpdateStream [caExisting] "a" caUpd "s-gen0"
        = .ok [[("id", .pstr "b"), ("port", .pint 5004), ("enabled", .pbool true)]]
    ∧ dictGet (apiMerge caExisting caUpd "s-gen0") "id" = some (.pstr "b") := by
  refine ⟨rfl, ?_, rfl⟩
  rfl

/-- C3 (amended): both update merges preserve every field not present in
the partial; the core `update_stream` additionally forces the resulting
`id` to the target stream id regardless of the partial, while the HTTP
PATCH route preserves the original id only when the partial does not
supply one (a truthy id in the partial wins, as the counterexample
shows). -/
theorem claim3_amended_update_merge :
    (∀ (existing upd : Dict) (stream_id : String) (k : String) (v : PyVal),
        k ≠ "id" → dictGet upd k = none → dictGet existing k = some v →
        dictGet (coreMergeUpdate existing upd stream_id) k = some v)
    ∧ (∀ (existing upd : Dict) (stream_id : String),
        dictGet (coreMergeUpdate existing upd stream_id) "id" = some (.pstr stream_id))
    ∧ (∀ (s upd : Dict) (genId : String) (k : String) (v : PyVal),
        k ≠ "id" → dictGet upd k = none → dictGet s k = some v →
        dictGet (apiMerge s upd genId) k = some v)
    ∧ (∀ (s upd : Dict) (genId : String) (v : PyVal),
        dictGet upd "id" = none → dictGet s "id" = some v → pyTruthy v = true →
        dictGet (apiMerge s upd genId) "id" = some v) := by
  refine ⟨?_, ?_, ?_, ?_⟩
  · intro existing upd stream_id k v hk hupd hex
    unfold coreMergeUpdate
    rw [dictGet_set_ne _ k "id" (.pstr stream_id) (fun hc => hk hc.symm)]
    exact dictGet_enabled_default _ k v (by rw [dictGet_merge_none existing upd k hupd]; exact hex)
  · intro existing upd stream_id
    unfold coreMergeUpdate
    exact dictGet_set_eq _ "id" (.pstr stream_id)
  · intro s upd genId k v hk hupd hs
    unfold apiMerge
    have hmerged : dictGet
        (if (dictGet (dictMerge s upd) "enabled").isNone
         then dictSet (dictMerge s upd) "enabled" (.pbool true) else dictMerge s upd) k
          = some v :=
      dictGet_enabled_default _ k v (by rw [dictGet_merge_none s upd k hupd]; exact hs)
    by_cases ht : pyTruthy ((dictGet
        (if (dictGet (dictMerge s upd) "enabled").isNone
         then dictSet (dictMerge s upd) "enabled" (.pbool true) else dictMerge s upd)
        "id").getD .pnone)
    · rw [if_pos ht]
      exact hmerged
    · rw [if_neg ht]
      rw [dictGet_set_ne _ k "id" _ (fun hc => hk hc.symm)]
      exact hmerged
  · intro s upd genId v hupd hs ht
    unfold apiMerge
    have hmerged : dictGet
        (if (dictGet (dictMerge s upd) "enabled").isNone
         then dictSet (dictMerge s upd) "enabled" (.pbool true) else dictMerge s upd) "id"
          = some v :=
      dictGet_enabled_default _ "id" v
        (by rw [dictGet_merge_none s upd "id" hupd]; exact hs)
    rw [if_pos (by rw [hmerged]; exact ht)]
    exact hmerged

/-- Witness for C3 (amended): a field absent from the partial survives the
core merge unchanged, and the route merge keeps the original id when the
partial omits it. -/
theorem claim3_amended_update_merge_witness :
    dictGet (coreMergeUpdate caExisting caUpdFmt "a") "port" = some (.pint 5004)
    ∧ dictGet (apiMerge caExisting caUpdFmt "s-gen0") "id" = some (.pstr "a") :=
  ⟨claim3_amended_update_merge.1 caExisting caUpdFmt "a" "port" (.pint 5004)
      (by decide) rfl rfl,
    claim3_amended_update_merge.2.2.2 caExisting caUpdFmt "s-gen0" (.pstr "a")
      rfl rfl (by decide)⟩

/-- C4 counterexample: `replace_all_streams` keeps entries that arrive
with colliding ids — replacing the registry with two entries that both
carry id `x` leaves both ids equal to `x`, so the resulting registry has
a duplicated id and no new unique id is generated. -/
theorem claim4_unique_id_counterexample :
    (replaceAllStreams genW [dupX, dupX]).map (fun d => dictGet d "id")
        = [some (.pstr "x"), some (.pstr "x")]
    ∧ ¬ ((replaceAllStreams genW [dupX, dupX]).map (fun d => dictGet d "id")).Nodup := by
  refine ⟨rfl, ?_⟩
  decide

/-- C4 (amended): every write path populates `enabled` (default true) and
a truthy `id` (generated when absent or falsy), but no write path checks
for id collisions — an entry arriving with an existing id keeps it, as
the counterexample shows. -/
theorem claim4_amended_normalization (gen : Nat → String) (genId : String)
    (streams : List Dict) (s : Dict) (hgen : ∀ n, gen n ≠ "") (hid : genId ≠ "") :
    (∀ d ∈ normalizeStreams gen streams,
        (dictGet d "enabled").isSome ∧ ∃ v, dictGet d "id" = some v ∧ pyTruthy v = true)
    ∧ ((dictGet (normalizeStream genId s) "enabled").isSome
        ∧ ∃ v, dictGet (normalizeStream genId s) "id" = some v ∧ pyTruthy v = true) :=
  ⟨fun d hd => normalizeStreamsGo_spec gen hgen streams 0 d hd,
    normalizeStream_spec genId hid s⟩

/-- Witness for C4 (amended): normalizing a dict with neither `enabled`
nor `id` populates both. -/
theorem claim4_amended_normalization_witness :
    (dictGet (normalizeStream "s-w0" [("kind", .pstr "sender")]) "enabled").isSome
    ∧ ∃ v, dictGet (normalizeStream "s-w0" [("kind", .pstr "sender")]) "id" = some v
        ∧ pyTruthy v = true :=
  (claim4_amended_normalization genW "s-w0" [] [("kind", .pstr "sender")]
    (fun n => by
      simp only [genW]
      exact string_append_ne_empty "s-w" (pyNatStr n) (by decide)) (by decide)).2

/-- C1: during full reconciliation, the failure list is exactly the
per-stream records (stream id, error text, kind/device/ip/port/enabled
summary) of the streams whose sync raised — every stream in the list is
processed and a failure of one never stops the others; in particular,
when exactly one of the streams fails, the failure list contains exactly
that one stream's record. -/
theorem claim1_reconcile_failure_isolation (envOf : String → SupervisorEnv)
    (streams : List Dict) :
    syncAllStreamsToGstreamer envOf streams
        = (streams.filter (syncFails envOf)).map (mkFailRecord envOf)
    ∧ (∀ pre k post, streams = pre ++ k :: post → syncFails envOf k = true →
        ((pre ++ post).all fun d => !syncFails envOf d) = true →
        syncAllStreamsToGstreamer envOf streams = [mkFailRecord envOf k]) := by
  have hmain : syncAllStreamsToGstreamer envOf streams
      = (streams.filter (syncFails envOf)).map (mkFailRecord envOf) := by
    unfold syncAllStreamsToGstreamer
    rw [syncAll_foldl]
    rfl
  refine ⟨hmain, ?_⟩
  intro pre k post hstreams hk hall
  subst hstreams
  rw [hmain, List.filter_append, List.filter_cons_of_pos hk]
  simp only [List.all_eq_true, List.mem_append, Bool.not_eq_eq_eq_not, Bool.not_true] at hall
  have hpre : pre.filter (syncFails envOf) = [] :=
    List.filter_eq_nil_iff.mpr fun a ha => by simp [hall a (Or.inl ha)]
  have hpost : post.filter (syncFails envOf) = [] :=
    List.filter_eq_nil_iff.mpr fun a ha => by simp [hall a (Or.inr ha)]
  rw [hpre, hpost]
  rfl

/-- Witness for C1: of three streams, the middle one has a port `int()`
cannot convert; the failure list is exactly its record while the two
well-formed streams sync. -/
theorem claim1_reconcile_failure_isolation_witness :
    syncAllStreamsToGstreamer envOfW streamsW = [mkFailRecord envOfW badStreamW] :=
  (claim1_reconcile_failure_isolation envOfW streamsW).2 [goodSenderW] badStreamW
    [goodReceiverW] rfl (by decide) (by decide)

/-- C6 counterexample: start does not poll repeatedly until a bounded
timeout — against an environment whose unit would be observed RUNNING
from the second status query on (well inside any few-seconds window), the
start performs exactly one status query and fails. -/
theorem claim6_poll_counterexample :
    (envPollTwice.status 1).map SupStatus.state = some "RUNNING"
    ∧ (startStream envPollTwice cfgW true).1.count StartStep.statusQuery = 1
    ∧ (startStream envPollTwice cfgW true).2.isOk = false := by
  refine ⟨rfl, ?_, ?_⟩ <;> decide

/-- C6 (amended): every start attempt performs, in order, the unit
definition write with the requested auto-start flag, the supervisor
reload, a single fixed 0.5 s wait, and exactly one status query; it
succeeds iff that one query reports a running state or reports no unit at
all — there is no repeated polling loop. -/
theorem claim6_amended_start_protocol (env : SupervisorEnv) (c : StreamConfig)
    (enabled : Bool) :
    (startStream env c enabled).1.take 4 = startPreSteps enabled
    ∧ (startStream env c enabled).1.count StartStep.statusQuery = 1
    ∧ ((startStream env c enabled).2.isOk = true ↔
        env.status 0 = none ∨ ∃ st, env.status 0 = some st ∧ st.state = "RUNNING") := by
  have hcount : (startPreSteps enabled).count StartStep.statusQuery = 1 := by
    cases enabled <;> decide
  have hcount2 : (startPreSteps enabled ++ stopSteps).count StartStep.statusQuery = 1 := by
    cases enabled <;> decide
  cases h : env.status 0 with
  | none =>
    have heq : startStream env c enabled = (startPreSteps enabled, Except.ok ()) := by
      simp only [startStream, h]
    rw [heq]
    exact ⟨rfl, hcount, iff_of_true rfl (Or.inl rfl)⟩
  | some st =>
    by_cases hr : st.state = "RUNNING"
    · have heq : startStream env c enabled = (startPreSteps enabled, Except.ok ()) := by
        simp only [startStream, h]
        rw [if_pos hr]
      rw [heq]
      exact ⟨rfl, hcount, iff_of_true rfl (Or.inr ⟨st, rfl, hr⟩)⟩
    · have h1 : (startStream env c enabled).1 = startPreSteps enabled ++ stopSteps := by
        simp only [startStream, h]
        rw [if_neg hr]
      have h2 : ∃ e, (startStream env c enabled).2 = Except.error e := by
        simp only [startStream, h]
        rw [if_neg hr]
        exact ⟨_, rfl⟩
      obtain ⟨e, h2⟩ := h2
      refine ⟨by rw [h1]; rfl, by rw [h1]; exact hcount2, ?_⟩
      rw [h2]
      constructor
      · intro hc
        exact absurd hc (by simp [Except.isOk, Except.toBool])
      · rintro (hc | ⟨st', hst', hrun⟩)
        · exact Option.noConfusion hc
        · injection hst' with he
          exact absurd (he ▸ hrun) hr

/-- C7: whenever the single status check reports a state other than
RUNNING, the stop-and-cleanup steps are performed before the error is
surfaced, and the surfaced error message is non-empty (a classified
message, the bounded raw log tail, or the generic message naming the
observed state). -/
theorem claim7_start_failure_cleanup (env : SupervisorEnv) (c : StreamConfig)
    (st : SupStatus) (h : env.status 0 = some st) (hs : st.state ≠ "RUNNING") :
    (startStream env c true).1 = startPreSteps true ++ stopSteps
    ∧ ∃ msg, (startStream env c true).2 = .error msg ∧ msg ≠ "" := by
  have hgen : ("Stream failed to start: " ++ st.statename) ≠ "" :=
    string_append_ne_empty "Stream failed to start: " st.statename (by decide)
  have h1 : (startStream env c true).1 = startPreSteps true ++ stopSteps := by
    simp only [startStream, h]
    rw [if_neg hs]
  have h2 : (startStream env c true).2
      = Except.error
          (match getProcessError c env.errorLog with
           | some m => if m = "" then "Stream failed to start: " ++ st.statename else m
           | none => "Stream failed to start: " ++ st.statename) := by
    simp only [startStream, h]
    rw [if_neg hs]
  refine ⟨h1, ?_⟩
  rw [h2]
  cases hge : getProcessError c env.errorLog with
  | none => exact ⟨_, rfl, hgen⟩
  | some m =>
    by_cases hm : m = ""
    · show ∃ msg,
        Except.error (if m = "" then "Stream failed to start: " ++ st.statename else m)
          = Except.error msg ∧ msg ≠ ""
      rw [if_pos hm]
      exact ⟨_, rfl, hgen⟩
    · show ∃ msg,
        Except.error (if m = "" then "Stream failed to start: " ++ st.statename else m)
          = Except.error msg ∧ msg ≠ ""
      rw [if_neg hm]
      exact ⟨m, rfl, hm⟩

/-- Witness for C7: a FATAL status with a diagnosable log produces the
cleanup trace and a non-empty error. -/
theorem claim7_start_failure_cleanup_witness :
    (startStream envFatal cfgW true).1 = startPreSteps true ++ stopSteps
    ∧ ∃ msg, (startStream envFatal cfgW true).2 = .error msg ∧ msg ≠ "" :=
  claim7_start_failure_cleanup envFatal cfgW stFatal rfl (by decide)

/-- C8 counterexample: at the HTTP layer a stream id absent from the
registry does not always yield NotFound — deleting `"0"` from a registry
whose only stream has id `abc` succeeds (it deletes by position), and
deleting `"0"` twice from a two-stream registry succeeds both times. -/
theorem claim8_notfound_counterexample :
    dictGet streamAbc "id" = some (.pstr "abc")
    ∧ routeDeleteStream [streamAbc] "0" = .ok []
    ∧ routeDeleteStream [streamAbc, streamDef2] "0" = .ok [streamDef2]
    ∧ routeDeleteStream [streamDef2] "0" = .ok [] := by
  refine ⟨rfl, ?_, ?_, ?_⟩ <;> decide

/-- C8 (amended): the core `update_stream`/`delete_stream` fail with the
NotFound error for every absent id and leave the registry untouched, and
deleting the same id twice succeeds once and then yields NotFound; the
HTTP routes behave the same except when the requested id equals the
decimal string of a position in the list, where they match by position
(the index fallback shown by the counterexample and by C9). -/
theorem claim8_amended_notfound :
    (∀ (reg : Registry) (sid : String) (upd : Dict), getStreamById reg sid = none →
        coreUpdateStream reg sid upd = .error ("Stream " ++ sid ++ " not found")
        ∧ coreDeleteStream reg sid = .error ("Stream " ++ sid ++ " not found"))
    ∧ (∀ (reg : Registry) (sid : String) (d : Dict), getStreamById reg sid = some d →
        coreDeleteStream reg sid = .ok (regErase reg sid)
        ∧ coreDeleteStream (regErase reg sid) sid
            = .error ("Stream " ++ sid ++ " not found"))
    ∧ (∀ (streams : List Dict) (sid : String) (upd : Dict) (genId : String),
        (∀ i, i < streams.length → pyNatStr i ≠ sid) →
        (∀ s ∈ streams, ∀ v, dictGet s "id" = some v → pyStr v ≠ sid) →
        routeUpdateStream streams sid upd genId = .error 404
        ∧ routeDeleteStream streams sid = .error 404) := by
  refine ⟨?_, ?_, ?_⟩
  · intro reg sid upd hnone
    constructor
    · unfold coreUpdateStream
      rw [hnone]
    · unfold coreDeleteStream
      rw [hnone]
  · intro reg sid d hsome
    constructor
    · unfold coreDeleteStream
      rw [hsome]
    · unfold coreDeleteStream
      rw [getStreamById_regErase]
  · intro streams sid upd genId hidx hid
    constructor
    · unfold routeUpdateStream
      rw [routeUpdateGo_none sid upd genId streams 0 (fun k hk => by simpa using hidx k hk) hid]
    · unfold routeDeleteStream
      rw [routeDeleteGo_none sid streams 0 (fun k hk => by simpa using hidx k hk) hid]
      rfl

/-- Witness for C8 (amended): an absent id yields NotFound on the core
paths and 404 on the routes; deleting id `abc` twice succeeds then yields
NotFound. -/
theorem claim8_amended_notfound_witness :
    (coreUpdateStream regW "zzz" caUpdFmt = .error "Stream zzz not found"
      ∧ coreDeleteStream regW "zzz" = .error "Stream zzz not found")
    ∧ (coreDeleteStream regW "abc" = .ok (regErase regW "abc")
      ∧ coreDeleteStream (regErase regW "abc") "abc" = .error "Stream abc not found")
    ∧ (routeUpdateStream [streamAbc] "zzz" caUpdFmt "s-gen0" = .error 404
      ∧ routeDeleteStream [streamAbc] "zzz" = .error 404) :=
  ⟨claim8_amended_notfound.1 regW "zzz" caUpdFmt rfl,
    claim8_amended_notfound.2.1 regW "abc" streamAbc rfl,
    claim8_amended_notfound.2.2 [streamAbc] "zzz" caUpdFmt "s-gen0"
      (fun i hi => by
        have hi0 : i = 0 := by simpa using hi
        rw [hi0]
        decide)
      (fun s hs v hv => by
        have hseq : s = streamAbc := by simpa using hs
        rw [hseq] at hv
        have hrd : dictGet streamAbc "id" = some (PyVal.pstr "abc") := rfl
        rw [hrd] at hv
        injection hv with h3
        rw [← h3]
        decide)⟩

/-- C9: when `stream_id` is the decimal string of a position `j` in the
list and no stream's id prints as that string, the PATCH route updates
and the DELETE route deletes the entry at position `j` instead of
answering 404. -/
theorem claim9_route_index_fallback (streams : List Dict) (j : Nat) (upd : Dict)
    (genId : String) (hj : j < streams.length)
    (hid : ∀ s ∈ streams, ∀ v, dictGet s "id" = some v → pyStr v ≠ pyNatStr j) :
    routeUpdateStream streams (pyNatStr j) upd genId
        = .ok (streams.set j (apiMerge (streams.get ⟨j, hj⟩) upd genId))
    ∧ routeDeleteStream streams (pyNatStr j) = .ok (streams.eraseIdx j) := by
  constructor
  · unfold routeUpdateStream
    rw [routeUpdateGo_at j upd genId streams 0 j hj (by omega) hid]
  · unfold routeDeleteStream
    rw [routeDeleteGo_at j streams 0 j hj (by omega) hid]
    rfl

/-- Witness for C9: updating and deleting `"0"` on a registry whose only
stream has id `abc` touches that entry rather than answering 404. -/
theorem claim9_route_index_fallback_witness :
    routeUpdateStream [streamAbc] (pyNatStr 0) caUpdFmt "s-gen0"
        = .ok [apiMerge streamAbc caUpdFmt "s-gen0"]
    ∧ routeDeleteStream [streamAbc] (pyNatStr 0) = .ok [] :=
  claim9_route_index_fallback [streamAbc] 0 caUpdFmt "s-gen0" (by decide)
    (fun s hs v hv => by
      have hseq : s = streamAbc := by simpa using hs
      rw [hseq] at hv
      have hrd : dictGet streamAbc "id" = some (PyVal.pstr "abc") := rfl
      rw [hrd] at hv
      injection hv with h3
      rw [← h3]
      decide)

end StagePiSpec
